import Mathlib

/-!
Verification of the DisplayShelf panel-layout generator
(`boxes/generators/displayshelf.py`) against its natural-language
specification.

The generator is shallowly embedded over `ℝ`: every float expression of the
Python source is translated to the corresponding real-number expression, and
Python's `ZeroDivisionError` is made explicit by guarding each division whose
divisor can be zero and returning an `Except` value.  The emitted layout is
modelled as the ordered list of panels produced by `render`, each panel
carrying its outline, its edge-type string, the finger-joint hole requests
issued by the hole-placement callback, and its label.
-/

namespace DisplayShelf

/-- One finger-joint hole request, i.e. one call
`self.fingerHolesAt(pos_x, pos_y, length, angle)` (orientation in degrees). -/
structure HoleReq where
  px : ℝ
  py : ℝ
  len : ℝ
  orient : ℝ

/-- Outline of an emitted panel: `rectangularWall(w, h, ...)` gives `rect`,
`polygonWall(borders, ...)` gives `poly` with the flat Python borders list
(alternating edge lengths and turn angles). -/
inductive Outline where
  | rect (w h : ℝ)
  | poly (borders : List ℝ)

/-- One emitted panel: its outline, its edge-type string, the hole requests
issued by its callback while it was traced, and its human-readable label. -/
structure Panel where
  outline : Outline
  edges : String
  holes : List HoleReq
  label : String

/-- Errors a generation run can end in.  `divisionByZero` models Python's
`ZeroDivisionError` (raised by `/` when the divisor is zero).
`invalidConfiguration` — Modelled from the spec: the spec's error-handling
section names an `InvalidConfiguration` error; the source defines no such
error, so this constructor exists only to make claims mentioning it statable
(the embedded code never produces it). -/
inductive RenderError where
  | divisionByZero
  | invalidConfiguration
deriving DecidableEq

/-- The user-supplied parameters of one generation run (the argparser fields
of the `DisplayShelf` class plus the framework-supplied `thickness`). -/
structure Config where
  x : ℝ
  y : ℝ
  h : ℝ
  thickness : ℝ
  num : ℕ
  front_wall_height : ℝ
  angle : ℝ
  include_back : Bool
  slope_top : Bool
  outside : Bool

/-- `math.radians(angle)`: degrees to radians. -/
noncomputable def radians (angle : ℝ) : ℝ :=
  angle * Real.pi / 180

/-- The slant-length expression of `render`:
`(y - (thickness * (math.cos(a) + abs(math.sin(a)))) - max(0, math.sin(a) * front)) / math.cos(a)`.
The caller must separately rule out `cos a = 0` (Python raises
`ZeroDivisionError` there, see `render`). -/
noncomputable def slFromDepth (y t front a : ℝ) : ℝ :=
  (y - t * (Real.cos a + |Real.sin a|) - max 0 (Real.sin a * front)) / Real.cos a

/-- `hs = (self.sl+t) * math.sin(a) + math.cos(a) * t` in
`generate_finger_holes`. -/
noncomputable def hsOf (t a sl : ℝ) : ℝ :=
  (sl + t) * Real.sin a + Real.cos a * t

/-- The `pos_y` of the shelf-seat hole for shelf index `i` in
`generate_finger_holes`:
`pos_y = hs - math.cos(a)*0.5*t + i * (self.h-abs(hs)) / (self.num - 0.5)`
followed by `if a < 0: pos_y += -math.sin(a) * self.sl`. -/
noncomputable def shelfHolePos_y (t a sl h : ℝ) (num i : ℕ) : ℝ :=
  let hs := hsOf t a sl
  let base := hs - Real.cos a * 0.5 * t + (i : ℝ) * (h - |hs|) / ((num : ℝ) - 0.5)
  if a < 0 then base + -Real.sin a * sl else base

/-- The shelf-seat hole request of iteration `i`:
`self.fingerHolesAt(pos_x, pos_y, self.sl, -self.angle)` with
`pos_x = abs(0.5*t*math.sin(a))`. -/
noncomputable def shelfHole (t a angle sl h : ℝ) (num i : ℕ) : HoleReq :=
  ⟨|0.5 * t * Real.sin a|, shelfHolePos_y t a sl h num i, sl, -angle⟩

/-- The front-lip-seat hole request of iteration `i`: the anchor of the shelf
seat advanced by
`pos_x += math.cos(-a) * (self.sl+0.5*t) + math.sin(a)*0.5*t` and
`pos_y += math.sin(-a) * (self.sl+0.5*t) + math.cos(a)*0.5*t`, then
`self.fingerHolesAt(pos_x, pos_y, self.front_wall_height, 90-self.angle)`. -/
noncomputable def lipHole (t a angle sl front h : ℝ) (num i : ℕ) : HoleReq :=
  ⟨|0.5 * t * Real.sin a| + (Real.cos (-a) * (sl + 0.5 * t) + Real.sin a * 0.5 * t),
   shelfHolePos_y t a sl h num i + (Real.sin (-a) * (sl + 0.5 * t) + Real.cos a * 0.5 * t),
   front, 90 - angle⟩

/-- `generate_finger_holes`: the hole-placement callback.  For every
`i in range(self.num)` it issues the shelf-seat request followed by the
front-lip-seat request (the latter is issued unconditionally, whatever the
value of `front_wall_height`). -/
noncomputable def generate_finger_holes (t a angle sl front h : ℝ) (num : ℕ) : List HoleReq :=
  (List.range num).flatMap fun i =>
    [shelfHole t a angle sl h num i, lipHole t a angle sl front h num i]

/-- `vertical_cut = top_segment_height - self.front_wall_height` with
`top_segment_height = height/self.num` (before the fallback clamp).  The
caller must separately rule out `num = 0` (Python `ZeroDivisionError`). -/
noncomputable def naive_vertical_cut (front : ℝ) (num : ℕ) (height : ℝ) : ℝ :=
  height / (num : ℝ) - front

/-- `hypotenuse = vertical_cut / math.sin(a)` (before the fallback clamp).
The caller must separately rule out `sin a = 0` (Python raises
`ZeroDivisionError` there, see `generate_sloped_sides`). -/
noncomputable def naive_hypotenuse (a front : ℝ) (num : ℕ) (height : ℝ) : ℝ :=
  naive_vertical_cut front num height / Real.sin a

/-- `horizontal_cut = math.sqrt((hypotenuse ** 2) - (vertical_cut ** 2))`
(before the fallback clamp). -/
noncomputable def naive_horizontal_cut (a front : ℝ) (num : ℕ) (height : ℝ) : ℝ :=
  Real.sqrt (naive_hypotenuse a front num height ^ 2 - naive_vertical_cut front num height ^ 2)

/-- The `horizontal_cut` after the fallback branch
`if (horizontal_cut > width): horizontal_cut = width - 1`. -/
noncomputable def final_horizontal_cut (a front : ℝ) (num : ℕ) (width height : ℝ) : ℝ :=
  if naive_horizontal_cut a front num height > width then width - 1
  else naive_horizontal_cut a front num height

/-- The `vertical_cut` after the fallback branch
(`vertical_cut = horizontal_cut * math.tan(a)` with the clamped
`horizontal_cut = width - 1`). -/
noncomputable def final_vertical_cut (a front : ℝ) (num : ℕ) (width height : ℝ) : ℝ :=
  if naive_horizontal_cut a front num height > width then (width - 1) * Real.tan a
  else naive_vertical_cut front num height

/-- The `hypotenuse` after the fallback branch
(`hypotenuse = math.sqrt((horizontal_cut ** 2) + (vertical_cut ** 2))` from the
clamped values). -/
noncomputable def final_hypotenuse (a front : ℝ) (num : ℕ) (width height : ℝ) : ℝ :=
  if naive_horizontal_cut a front num height > width then
    Real.sqrt ((width - 1) ^ 2 + ((width - 1) * Real.tan a) ^ 2)
  else naive_hypotenuse a front num height

/-- The borders list passed to `polygonWall` in `generate_sloped_sides`:
`[width, 90, front, 90-self.angle, hypotenuse, self.angle, top, 90, height, 90]`
with `top = width - horizontal_cut` and `front = height - vertical_cut`
computed from the post-fallback cut values.  Odd positions are turn angles
(degrees), even positions are edge lengths. -/
noncomputable def sloped_borders (c : Config) (a width height : ℝ) : List ℝ :=
  [width, 90, height - final_vertical_cut a c.front_wall_height c.num width height,
   90 - c.angle, final_hypotenuse a c.front_wall_height c.num width height, c.angle,
   width - final_horizontal_cut a c.front_wall_height c.num width height, 90, height, 90]

/-- The two `polygonWall` panels emitted by `generate_sloped_sides` (its
emission part, after the geometry is known to be computable). -/
noncomputable def sloped_side_panels (c : Config) (a sl width height : ℝ) : List Panel :=
  [⟨.poly (sloped_borders c a width height), if c.include_back then "eeeef" else "e",
    generate_finger_holes c.thickness a c.angle sl c.front_wall_height c.h c.num, "left side"⟩,
   ⟨.poly (sloped_borders c a width height), if c.include_back then "eeeef" else "e",
    generate_finger_holes c.thickness a c.angle sl c.front_wall_height c.h c.num, "right side"⟩]

/-- `generate_sloped_sides(width, height)`.  Python evaluates
`height/self.num` (ZeroDivisionError when `num = 0`) and then
`vertical_cut / math.sin(a)` (ZeroDivisionError when `sin a = 0`) before
emitting anything, so both failure conditions are made explicit. -/
noncomputable def generate_sloped_sides (c : Config) (a sl width height : ℝ) :
    Except RenderError (List Panel) :=
  if c.num = 0 then .error .divisionByZero
  else if Real.sin a = 0 then .error .divisionByZero
  else .ok (sloped_side_panels c a sl width height)

/-- `generate_rectangular_sides(width, height)`: two `rectangularWall` panels
with edges `"eeef"` when `include_back` else `"eeee"`, each with the
finger-hole callback. -/
noncomputable def generate_rectangular_sides (c : Config) (a sl width height : ℝ) : List Panel :=
  [⟨.rect width height, if c.include_back then "eeef" else "eeee",
    generate_finger_holes c.thickness a c.angle sl c.front_wall_height c.h c.num, "left side"⟩,
   ⟨.rect width height, if c.include_back then "eeef" else "eeee",
    generate_finger_holes c.thickness a c.angle sl c.front_wall_height c.h c.num, "right side"⟩]

/-- `generate_shelves`: when `self.front_wall_height` is truthy (Python:
nonzero) each shelf board `x × sl` (edges `"ffef"`) is followed by its front
lip `x × front_wall_height` (edges `"Ffef"`); otherwise only the shelf boards
are emitted, with edges `"Efef"`. -/
noncomputable def generate_shelves (c : Config) (x sl : ℝ) : List Panel :=
  if c.front_wall_height ≠ 0 then
    (List.range c.num).flatMap fun i =>
      [⟨.rect x sl, "ffef", [], "shelf " ++ toString (i + 1)⟩,
       ⟨.rect x c.front_wall_height, "Ffef", [], "front lip " ++ toString (i + 1)⟩]
  else
    (List.range c.num).map fun i => ⟨.rect x sl, "Efef", [], "shelf " ++ toString (i + 1)⟩

/-- The width actually used by `render` (`x = self.adjustSize(x)` when
`outside`): `adjust` is the framework's outer-to-inner adjustment, kept
abstract. -/
def xUsed (adjust : ℝ → ℝ) (c : Config) : ℝ :=
  if c.outside then adjust c.x else c.x

/-- The depth actually used by `render`: `y` is outer-adjusted only when both
`outside` and `include_back` hold (the nested `if` in `render`). -/
def yUsed (adjust : ℝ → ℝ) (c : Config) : ℝ :=
  if c.outside && c.include_back then adjust c.y else c.y

/-- `render`: dimension resolution, then the side panels (sloped or
rectangular), then the shelves/lips, then the optional back wall, emitted in
that order.  The division by `math.cos(a)` in the slant-length formula is
guarded (Python `ZeroDivisionError`).  Note that `render` rebinds only the
*local* `x` to the adjusted width: `generate_shelves` reads the
never-adjusted `self.x` (i.e. `c.x`), and only the back wall uses the
adjusted local `x`. -/
noncomputable def render (adjust : ℝ → ℝ) (c : Config) : Except RenderError (List Panel) :=
  let x := xUsed adjust c
  let y := yUsed adjust c
  let a := radians c.angle
  if Real.cos a = 0 then .error .divisionByZero
  else
    let sl := slFromDepth y c.thickness c.front_wall_height a
    match (if c.slope_top then generate_sloped_sides c a sl y c.h
           else .ok (generate_rectangular_sides c a sl y c.h)) with
    | .error e => .error e
    | .ok sides =>
        .ok (sides ++ generate_shelves c c.x sl ++
          (if c.include_back then [⟨.rect x c.h, "eFeF", [], "back wall"⟩] else []))

/-- The concrete scenario of the spec's testable properties:
`x=400, y=100, h=300, num=3, angle=30, front_wall_height=20,
include_back=False, slope_top=False, thickness=3` (inner dimensions). -/
def cfg30 : Config :=
  ⟨400, 100, 300, 3, 3, 20, 30, false, false, false⟩

/-- The same scenario with `angle = -30`. -/
def cfgNeg30 : Config :=
  ⟨400, 100, 300, 3, 3, 20, -30, false, false, false⟩

/-- A 90° configuration: `cos(radians(90)) = 0`. -/
def cfg90 : Config :=
  ⟨400, 100, 300, 3, 3, 20, 90, false, false, false⟩

/-- A configuration with `num = 0` in rectangular mode. -/
def cfgNum0 : Config :=
  ⟨400, 100, 300, 3, 0, 20, 0, false, false, false⟩

/-- A sloped-top configuration at 45° built to trigger the fallback clamp:
one shelf, no front wall, `naive_horizontal_cut = 300 > width = 100`. -/
def cfgSlope45 : Config :=
  ⟨400, 100, 300, 3, 1, 0, 45, false, true, false⟩

/-- A sloped-top configuration with `angle = 0` (division by `sin 0`). -/
def cfgSlope0 : Config :=
  ⟨400, 100, 300, 3, 3, 20, 0, false, true, false⟩

/-- An outer-dimension configuration (`outside = true`, `include_back = true`,
rectangular mode, `angle = 0`) used to exhibit the width used by the shelf
boards versus the back wall. -/
def cfgOutsideBack : Config :=
  ⟨400, 100, 300, 3, 3, 20, 0, true, false, true⟩

/-! ## Helper lemmas -/

theorem flatMap_pair_length {α : Type} (n : ℕ) (f g : ℕ → α) :
    ((List.range n).flatMap fun i => [f i, g i]).length = 2 * n := by
  induction n with
  | zero => simp
  | succ n ih =>
      rw [List.range_succ, List.flatMap_append]
      simp [ih]
      omega

theorem flatMap_pair_getElem {α : Type} (n : ℕ) (f g : ℕ → α) (i : ℕ) (hi : i < n) :
    ((List.range n).flatMap fun j => [f j, g j])[2 * i]? = some (f i) ∧
    ((List.range n).flatMap fun j => [f j, g j])[2 * i + 1]? = some (g i) := by
  induction n with
  | zero => exact absurd hi (Nat.not_lt_zero i)
  | succ n ih =>
      rw [List.range_succ, List.flatMap_append]
      have hlen : ((List.range n).flatMap fun j => [f j, g j]).length = 2 * n :=
        flatMap_pair_length n f g
      rcases Nat.lt_or_ge i n with hin | hge
      · obtain ⟨h1, h2⟩ := ih hin
        constructor
        · rw [List.getElem?_append_left (by rw [hlen]; omega), h1]
        · rw [List.getElem?_append_left (by rw [hlen]; omega), h2]
      · have hieq : i = n := Nat.le_antisymm (Nat.lt_succ_iff.mp hi) hge
        subst hieq
        constructor
        · rw [List.getElem?_append_right (by rw [hlen]), hlen]
          rw [show 2 * i - 2 * i = 0 by omega]
          rfl
        · rw [List.getElem?_append_right (by rw [hlen]; omega), hlen]
          rw [show 2 * i + 1 - 2 * i = 1 by omega]
          rfl

theorem radians_neg_iff (angle : ℝ) : radians angle < 0 ↔ angle < 0 := by
  unfold radians
  constructor
  · intro hl
    by_contra hge
    push_neg at hge
    nlinarith [Real.pi_pos]
  · intro hl
    nlinarith [Real.pi_pos]

/-! ## Claims -/

/-- C2: for every configuration, the derived slant length equals
`(depth − thickness·(cos(radians) + |sin(radians)|) − max(0, sin(radians)·front_wall_height)) / cos(radians)`
where `depth` is the (possibly outer-adjusted) `y` and
`radians = angle·π/180`. -/
theorem c2_slant_length (adjust : ℝ → ℝ) (c : Config) :
    slFromDepth (yUsed adjust c) c.thickness c.front_wall_height (radians c.angle) =
      (yUsed adjust c
        - c.thickness * (Real.cos (c.angle * Real.pi / 180) + |Real.sin (c.angle * Real.pi / 180)|)
        - max 0 (Real.sin (c.angle * Real.pi / 180) * c.front_wall_height))
        / Real.cos (c.angle * Real.pi / 180) := rfl

/-- C1: for every configuration and every shelf index `i < num`, the
hole-placement callback requests the shelf-seat hole, and that request sits at
`pos_x = |0.5·t·sin(radians)|` and
`pos_y = hs − cos(radians)·0.5·t + i·(h − |hs|)/(num − 0.5)` with
`hs = (sl + t)·sin(radians) + cos(radians)·t`, plus `−sin(radians)·sl` exactly
when `angle < 0`; the request has length `sl` and orientation `−angle`. -/
theorem c1_shelf_seat_hole (t angle sl front h : ℝ) (num i : ℕ) (hi : i < num) :
    shelfHole t (radians angle) angle sl h num i ∈
      generate_finger_holes t (radians angle) angle sl front h num ∧
    shelfHole t (radians angle) angle sl h num i =
      ⟨|0.5 * t * Real.sin (radians angle)|,
       ((sl + t) * Real.sin (radians angle) + Real.cos (radians angle) * t)
         - Real.cos (radians angle) * 0.5 * t
         + (i : ℝ) * (h - |(sl + t) * Real.sin (radians angle) + Real.cos (radians angle) * t|)
           / ((num : ℝ) - 0.5)
         + (if angle < 0 then -Real.sin (radians angle) * sl else 0),
       sl, -angle⟩ := by
  constructor
  · exact List.mem_flatMap.mpr ⟨i, List.mem_range.mpr hi, by simp⟩
  · simp only [shelfHole, shelfHolePos_y, hsOf, HoleReq.mk.injEq, true_and, and_true]
    rw [if_congr (radians_neg_iff angle) rfl rfl]
    by_cases hang : angle < 0
    · rw [if_pos hang, if_pos hang]
    · rw [if_neg hang, if_neg hang]
      ring

theorem c1_shelf_seat_hole_witness :
    (0 : ℕ) < 3 ∧
    (shelfHole 3 (radians 30) 30 50 300 3 0 ∈
        generate_finger_holes 3 (radians 30) 30 50 20 300 3 ∧
      shelfHole 3 (radians 30) 30 50 300 3 0 =
        ⟨|0.5 * 3 * Real.sin (radians 30)|,
         ((50 + 3) * Real.sin (radians 30) + Real.cos (radians 30) * 3)
           - Real.cos (radians 30) * 0.5 * 3
           + ((0 : ℕ) : ℝ) * (300 - |(50 + 3) * Real.sin (radians 30) + Real.cos (radians 30) * 3|)
             / (((3 : ℕ) : ℝ) - 0.5)
           + (if (30 : ℝ) < 0 then -Real.sin (radians 30) * 50 else 0),
         50, -30⟩) :=
  ⟨by decide, c1_shelf_seat_hole 3 30 50 20 300 3 0 (by decide)⟩

/-- C3 (counterexample): in the concrete scenario with
`front_wall_height = 0`, the callback still issues `2·num = 6` hole requests,
not `num = 3` — the zero-length lip-seat requests are issued, not skipped. -/
theorem c3_counterexample :
    (generate_finger_holes 3 (radians 30) 30 (slFromDepth 100 3 0 (radians 30)) 0 300 3).length
        = 6 ∧
    (generate_finger_holes 3 (radians 30) 30 (slFromDepth 100 3 0 (radians 30)) 0 300 3).length
        ≠ 3 := by
  have hlen :
      (generate_finger_holes 3 (radians 30) 30 (slFromDepth 100 3 0 (radians 30)) 0 300 3).length
        = 6 := by
    unfold generate_finger_holes
    rw [show (3 : ℕ) = 2 + 1 from rfl, List.range_succ, List.flatMap_append,
      List.range_succ, List.flatMap_append, List.range_succ, List.flatMap_append]
    simp
  exact ⟨hlen, by rw [hlen]; decide⟩

/-- C3 (amended): for every configuration the side-panel hole-placement
callback issues exactly `2·num` finger-joint hole requests, whatever the value
of `front_wall_height`; for each shelf index `i < num`, request `2i` is the
shelf seat, of length `sl`, and request `2i+1` is the lip seat, of length
`front_wall_height` — so exactly `num` shelf seats and `num` lip seats are
issued, the latter zero-length (not skipped) when `front_wall_height = 0`. -/
theorem c3_amended_request_count (t a angle sl front h : ℝ) (num : ℕ) :
    (generate_finger_holes t a angle sl front h num).length = 2 * num ∧
    ∀ i < num,
      (generate_finger_holes t a angle sl front h num)[2 * i]? =
          some (shelfHole t a angle sl h num i) ∧
      (generate_finger_holes t a angle sl front h num)[2 * i + 1]? =
          some (lipHole t a angle sl front h num i) ∧
      (shelfHole t a angle sl h num i).len = sl ∧
      (lipHole t a angle sl front h num i).len = front := by
  refine ⟨flatMap_pair_length num _ _, ?_⟩
  intro i hi
  obtain ⟨h1, h2⟩ := flatMap_pair_getElem num _ _ i hi
  exact ⟨h1, h2, rfl, rfl⟩

theorem c3_amended_request_count_witness :
    (generate_finger_holes 3 (radians 30) 30 (slFromDepth 100 3 0 (radians 30)) 0 300 3).length
        = 2 * 3 ∧
    (0 : ℕ) < 3 ∧
    ((generate_finger_holes 3 (radians 30) 30 (slFromDepth 100 3 0 (radians 30)) 0 300 3)[2 * 0]? =
        some (shelfHole 3 (radians 30) 30 (slFromDepth 100 3 0 (radians 30)) 300 3 0) ∧
     (generate_finger_holes 3 (radians 30) 30
        (slFromDepth 100 3 0 (radians 30)) 0 300 3)[2 * 0 + 1]? =
        some (lipHole 3 (radians 30) 30 (slFromDepth 100 3 0 (radians 30)) 0 300 3 0) ∧
     (shelfHole 3 (radians 30) 30 (slFromDepth 100 3 0 (radians 30)) 300 3 0).len =
        slFromDepth 100 3 0 (radians 30) ∧
     (lipHole 3 (radians 30) 30 (slFromDepth 100 3 0 (radians 30)) 0 300 3 0).len = 0) :=
  ⟨(c3_amended_request_count 3 (radians 30) 30 (slFromDepth 100 3 0 (radians 30)) 0 300 3).1,
   by decide,
   (c3_amended_request_count 3 (radians 30) 30 (slFromDepth 100 3 0 (radians 30)) 0 300 3).2
     0 (by decide)⟩

theorem radians_ninety : radians (90 : ℝ) = Real.pi / 2 := by
  unfold radians
  ring

theorem radians_zero : radians (0 : ℝ) = 0 := by
  unfold radians
  ring

theorem countP_flatMap_pair_fst {α : Type} (n : ℕ) (f g : ℕ → α) (p : α → Bool)
    (hf : ∀ i, p (f i) = true) (hg : ∀ i, p (g i) = false) :
    ((List.range n).flatMap fun i => [f i, g i]).countP p = n := by
  induction n with
  | zero => simp
  | succ n ih =>
      rw [List.range_succ, List.flatMap_append, List.countP_append]
      simp [ih, List.countP_cons, hf, hg]

theorem countP_flatMap_pair_snd {α : Type} (n : ℕ) (f g : ℕ → α) (p : α → Bool)
    (hf : ∀ i, p (f i) = false) (hg : ∀ i, p (g i) = true) :
    ((List.range n).flatMap fun i => [f i, g i]).countP p = n := by
  induction n with
  | zero => simp
  | succ n ih =>
      rw [List.range_succ, List.flatMap_append, List.countP_append]
      simp [ih, List.countP_cons, hf, hg]

/-- C8: for every valid configuration (`front_wall_height ≥ 0`), exactly `num`
shelf boards of size `x × sl` are emitted (edge strings `"ffef"`/`"Efef"`),
together with exactly `num` front-lip boards of size
`x × front_wall_height` (edge string `"Ffef"`) when `front_wall_height > 0`
and none otherwise. -/
theorem c8_shelf_and_lip_counts (c : Config) (x sl : ℝ) (hf : 0 ≤ c.front_wall_height) :
    ((generate_shelves c x sl).countP fun p => p.edges == "ffef" || p.edges == "Efef") = c.num ∧
    ((generate_shelves c x sl).countP fun p => p.edges == "Ffef")
      = (if 0 < c.front_wall_height then c.num else 0) ∧
    (∀ p ∈ generate_shelves c x sl,
      (p.edges = "ffef" ∨ p.edges = "Efef") → p.outline = Outline.rect x sl) ∧
    (∀ p ∈ generate_shelves c x sl,
      p.edges = "Ffef" → p.outline = Outline.rect x c.front_wall_height) := by
  by_cases hz : c.front_wall_height = 0
  · have hnp : ¬ (0 < c.front_wall_height) := by rw [hz]; norm_num
    unfold generate_shelves
    rw [if_neg (not_not_intro hz), if_neg hnp]
    refine ⟨?_, ?_, ?_, ?_⟩
    · rw [List.countP_map]
      simp [Function.comp_def]
    · rw [List.countP_map]
      simp [Function.comp_def]
    · intro p hp _
      rcases List.mem_map.mp hp with ⟨i, _, hpe⟩
      rw [hpe.symm]
    · intro p hp hFf
      rcases List.mem_map.mp hp with ⟨i, _, hpe⟩
      rw [hpe.symm] at hFf
      simp at hFf
  · have hpos : 0 < c.front_wall_height := lt_of_le_of_ne hf (Ne.symm hz)
    unfold generate_shelves
    rw [if_pos hz, if_pos hpos]
    refine ⟨?_, ?_, ?_, ?_⟩
    · exact countP_flatMap_pair_fst c.num _ _ _ (fun i => by simp) (fun i => by simp)
    · exact countP_flatMap_pair_snd c.num _ _ _ (fun i => by simp) (fun i => by simp)
    · intro p hp hpe
      rcases List.mem_flatMap.mp hp with ⟨i, _, hmem⟩
      simp only [List.mem_cons, List.mem_singleton] at hmem
      rcases hmem with h1 | h2 | hff
      · rw [h1]
      · rw [h2] at hpe
        simp at hpe
      · exact absurd hff (List.not_mem_nil p)
    · intro p hp hFf
      rcases List.mem_flatMap.mp hp with ⟨i, _, hmem⟩
      simp only [List.mem_cons, List.mem_singleton] at hmem
      rcases hmem with h1 | h2 | hff
      · rw [h1] at hFf
        simp at hFf
      · rw [h2]
      · exact absurd hff (List.not_mem_nil p)

theorem c8_shelf_and_lip_counts_witness :
    (0 : ℝ) ≤ cfg30.front_wall_height ∧
    (((generate_shelves cfg30 400 (slFromDepth 100 3 20 (radians 30))).countP
        fun p => p.edges == "ffef" || p.edges == "Efef") = cfg30.num ∧
     ((generate_shelves cfg30 400 (slFromDepth 100 3 20 (radians 30))).countP
        fun p => p.edges == "Ffef")
        = (if 0 < cfg30.front_wall_height then cfg30.num else 0) ∧
     (∀ p ∈ generate_shelves cfg30 400 (slFromDepth 100 3 20 (radians 30)),
        (p.edges = "ffef" ∨ p.edges = "Efef") →
          p.outline = Outline.rect 400 (slFromDepth 100 3 20 (radians 30))) ∧
     (∀ p ∈ generate_shelves cfg30 400 (slFromDepth 100 3 20 (radians 30)),
        p.edges = "Ffef" → p.outline = Outline.rect 400 cfg30.front_wall_height)) :=
  ⟨by norm_num [cfg30],
   c8_shelf_and_lip_counts cfg30 400 (slFromDepth 100 3 20 (radians 30)) (by norm_num [cfg30])⟩

/-- C9 (code-bug evidence): at the failing input — `outside = true`,
`include_back = true`, `x = 400`, with an adjustment subtracting 6 — the run
emits the shelf and lip boards at the **never-adjusted** `self.x = 400`
(`generate_shelves` reads `self.x`; `render` rebinds only its local `x`),
while the back wall is emitted at the adjusted width `394`.  The claim (and
the spec) say the adjusted `x` is the width used for both. -/
theorem c9_code_bug_evidence :
    render (fun v => v - 6) cfgOutsideBack =
      .ok (generate_rectangular_sides cfgOutsideBack (radians cfgOutsideBack.angle)
            (slFromDepth (yUsed (fun v => v - 6) cfgOutsideBack) cfgOutsideBack.thickness
              cfgOutsideBack.front_wall_height (radians cfgOutsideBack.angle))
            (yUsed (fun v => v - 6) cfgOutsideBack) cfgOutsideBack.h
          ++ generate_shelves cfgOutsideBack cfgOutsideBack.x
              (slFromDepth (yUsed (fun v => v - 6) cfgOutsideBack) cfgOutsideBack.thickness
                cfgOutsideBack.front_wall_height (radians cfgOutsideBack.angle))
          ++ [⟨Outline.rect (xUsed (fun v => v - 6) cfgOutsideBack) cfgOutsideBack.h, "eFeF", [],
              "back wall"⟩]) ∧
    cfgOutsideBack.x = 400 ∧
    xUsed (fun v => v - 6) cfgOutsideBack = 394 ∧
    (400 : ℝ) ≠ 394 := by
  have hcos : Real.cos (radians cfgOutsideBack.angle) ≠ 0 := by
    show Real.cos (radians 0) ≠ 0
    rw [radians_zero, Real.cos_zero]
    norm_num
  refine ⟨?_, rfl, ?_, by norm_num⟩
  · unfold render
    rw [if_neg hcos]
    rfl
  · show (if cfgOutsideBack.outside then (fun v : ℝ => v - 6) cfgOutsideBack.x
      else cfgOutsideBack.x) = 394
    norm_num [cfgOutsideBack]

/-- C10: with `slope_top = true` and `angle = 0` (and a nonzero shelf count,
so the earlier `height/num` division succeeds), `generate_sloped_sides`
divides `vertical_cut` by `sin 0 = 0` and the whole run fails with the
numeric division-by-zero error, even though `cos(radians) ≠ 0` there — no
validation guard makes the branch unreachable. -/
theorem c10_slope_top_zero_angle (adjust : ℝ → ℝ) (c : Config)
    (hst : c.slope_top = true) (ha : c.angle = 0) (hn : c.num ≠ 0) :
    render adjust c = .error .divisionByZero ∧ Real.cos (radians c.angle) ≠ 0 := by
  have hr : radians c.angle = 0 := by rw [ha]; exact radians_zero
  have hcos : Real.cos (radians c.angle) ≠ 0 := by
    rw [hr, Real.cos_zero]
    norm_num
  refine ⟨?_, hcos⟩
  unfold render
  rw [if_neg hcos, hst]
  simp [generate_sloped_sides, hn, hr]

theorem c10_slope_top_zero_angle_witness :
    (cfgSlope0.slope_top = true ∧ cfgSlope0.angle = 0 ∧ cfgSlope0.num ≠ 0) ∧
    (render id cfgSlope0 = .error .divisionByZero ∧
      Real.cos (radians cfgSlope0.angle) ≠ 0) :=
  ⟨⟨by decide, rfl, by decide⟩,
   c10_slope_top_zero_angle id cfgSlope0 (by decide) rfl (by decide)⟩

/-- C5 (counterexample): at `angle = 90` (`cos(radians) = 0`) the run fails
with the numeric division-by-zero error and does not signal
`InvalidConfiguration`; and a `num = 0` rectangular-mode configuration
produces no error at all. -/
theorem c5_counterexample :
    render id cfg90 = .error .divisionByZero ∧
    render id cfg90 ≠ .error .invalidConfiguration ∧
    (∃ ps, render id cfgNum0 = .ok ps) := by
  have hcos : Real.cos (radians cfg90.angle) = 0 := by
    show Real.cos (radians 90) = 0
    rw [radians_ninety, Real.cos_pi_div_two]
  have h1 : render id cfg90 = .error .divisionByZero := by
    unfold render
    rw [if_pos hcos]
  have hc0 : Real.cos (radians cfgNum0.angle) ≠ 0 := by
    show Real.cos (radians 0) ≠ 0
    rw [radians_zero, Real.cos_zero]
    norm_num
  refine ⟨h1, ?_, ?_⟩
  · rw [h1]
    simp
  · refine ⟨generate_rectangular_sides cfgNum0 (radians cfgNum0.angle)
        (slFromDepth (yUsed id cfgNum0) cfgNum0.thickness cfgNum0.front_wall_height
          (radians cfgNum0.angle))
        (yUsed id cfgNum0) cfgNum0.h
      ++ generate_shelves cfgNum0 cfgNum0.x
          (slFromDepth (yUsed id cfgNum0) cfgNum0.thickness cfgNum0.front_wall_height
            (radians cfgNum0.angle))
      ++ [], ?_⟩
    unfold render
    rw [if_neg hc0]
    rfl

/-- C5 (amended): whenever `cos(radians) = 0` the run fails with the numeric
division-by-zero error, aborting before any panel is emitted; there is no
`InvalidConfiguration` validation — in particular a rectangular-mode
configuration with `num = 0` (i.e. `num < 1`) completes without any error. -/
theorem c5_amended_error_behavior (adjust : ℝ → ℝ) (c : Config) :
    (Real.cos (radians c.angle) = 0 → render adjust c = .error .divisionByZero) ∧
    (Real.cos (radians c.angle) ≠ 0 → c.num = 0 → c.slope_top = false →
      ∃ ps, render adjust c = .ok ps) := by
  constructor
  · intro hc
    unfold render
    rw [if_pos hc]
  · intro hc _ hst
    refine ⟨generate_rectangular_sides c (radians c.angle)
        (slFromDepth (yUsed adjust c) c.thickness c.front_wall_height (radians c.angle))
        (yUsed adjust c) c.h
      ++ generate_shelves c c.x
          (slFromDepth (yUsed adjust c) c.thickness c.front_wall_height (radians c.angle))
      ++ (if c.include_back then
            [⟨Outline.rect (xUsed adjust c) c.h, "eFeF", [], "back wall"⟩] else []), ?_⟩
    unfold render
    rw [if_neg hc, hst]
    rfl

theorem c5_amended_error_behavior_witness :
    render id cfg90 = .error .divisionByZero ∧ (∃ ps, render id cfgNum0 = .ok ps) :=
  ⟨(c5_amended_error_behavior id cfg90).1
      (by show Real.cos (radians 90) = 0; rw [radians_ninety, Real.cos_pi_div_two]),
   (c5_amended_error_behavior id cfgNum0).2
      (by show Real.cos (radians 0) ≠ 0; rw [radians_zero, Real.cos_zero]; norm_num)
      (by decide) (by decide)⟩

theorem radians_fortyfive : radians (45 : ℝ) = Real.pi / 4 := by
  unfold radians
  ring

theorem sin_radians_45_ne_zero : Real.sin (radians (45 : ℝ)) ≠ 0 := by
  rw [radians_fortyfive, Real.sin_pi_div_four]
  positivity

/-- At 45° with one shelf, no front wall and height 300, the pre-clamp
horizontal cut is exactly 300. -/
theorem naive_hc_at_45 : naive_horizontal_cut (radians 45) 0 1 300 = 300 := by
  have h2 : Real.sqrt 2 ^ 2 = 2 := Real.sq_sqrt (by norm_num)
  have hvc : naive_vertical_cut 0 1 300 = 300 := by
    unfold naive_vertical_cut
    norm_num
  have hhyp : naive_hypotenuse (radians 45) 0 1 300 = 300 / (Real.sqrt 2 / 2) := by
    unfold naive_hypotenuse
    rw [hvc, radians_fortyfive, Real.sin_pi_div_four]
  have hpow : ((300 : ℝ) / (Real.sqrt 2 / 2)) ^ 2 = 180000 := by
    rw [div_pow, div_pow, h2]
    norm_num
  unfold naive_horizontal_cut
  rw [hhyp, hvc, hpow]
  rw [show (180000 : ℝ) - 300 ^ 2 = 300 ^ 2 by norm_num]
  exact Real.sqrt_sq (by norm_num)

/-- C4 (counterexample): in the 45° fallback scenario
(`width = 100`, naive cut `300 > 100`) the emitted top edge is `1`, not
`width − 1 = 99`. -/
theorem c4_counterexample :
    (sloped_borders cfgSlope45 (radians 45) 100 300)[6]? = some 1 ∧
    (sloped_borders cfgSlope45 (radians 45) 100 300)[6]? ≠ some (100 - 1) := by
  have hfhc : final_horizontal_cut (radians 45) 0 1 100 300 = 100 - 1 := by
    unfold final_horizontal_cut
    rw [naive_hc_at_45]
    rw [if_pos (by norm_num : (300 : ℝ) > 100)]
  have h6 : (sloped_borders cfgSlope45 (radians 45) 100 300)[6]? =
      some (100 - final_horizontal_cut (radians 45) 0 1 100 300) := rfl
  constructor
  · rw [h6, hfhc]
    norm_num
  · rw [h6, hfhc]
    simp only [ne_eq, Option.some.injEq]
    norm_num

/-- C4 (amended): whenever the naively computed `horizontal_cut` exceeds
`width`, the clamp sets `horizontal_cut = width − 1`, so the emitted
silhouette's top edge equals exactly `1`; it is never negative, and it never
exceeds `width` as long as `width ≥ 1`. -/
theorem c4_amended_top_edge (c : Config) (a width height : ℝ)
    (hclamp : naive_horizontal_cut a c.front_wall_height c.num height > width)
    (hw : 1 ≤ width) :
    (sloped_borders c a width height)[6]? = some 1 ∧ (0 : ℝ) ≤ 1 ∧ (1 : ℝ) ≤ width := by
  have hfhc : final_horizontal_cut a c.front_wall_height c.num width height = width - 1 := by
    unfold final_horizontal_cut
    rw [if_pos hclamp]
  have h6 : (sloped_borders c a width height)[6]? =
      some (width - final_horizontal_cut a c.front_wall_height c.num width height) := rfl
  refine ⟨?_, by norm_num, hw⟩
  rw [h6, hfhc]
  norm_num

theorem c4_amended_top_edge_witness :
    (naive_horizontal_cut (radians 45) cfgSlope45.front_wall_height cfgSlope45.num 300 > 100 ∧
      (1 : ℝ) ≤ 100) ∧
    ((sloped_borders cfgSlope45 (radians 45) 100 300)[6]? = some 1 ∧
      (0 : ℝ) ≤ 1 ∧ (1 : ℝ) ≤ 100) :=
  have hclamp :
      naive_horizontal_cut (radians 45) cfgSlope45.front_wall_height cfgSlope45.num 300 > 100 := by
    rw [show naive_horizontal_cut (radians 45) cfgSlope45.front_wall_height cfgSlope45.num 300
          = 300 from naive_hc_at_45]
    norm_num
  ⟨⟨hclamp, by norm_num⟩,
   c4_amended_top_edge cfgSlope45 (radians 45) 100 300 hclamp (by norm_num)⟩

/-- C6: in sloped mode (shelf count and `sin` nonzero, so the geometry
divisions succeed) each emitted side panel is the six-sided boundary with
edge lengths, in order, `width`, `front = height − vertical_cut`, the cut
`hypotenuse`, `top = width − horizontal_cut`, `height` (closing back to
start), interleaved with the turn angles `90, 90−angle, angle, 90, 90`. -/
theorem c6_sloped_boundary (c : Config) (a sl width height : ℝ)
    (hn : c.num ≠ 0) (hs : Real.sin a ≠ 0) :
    generate_sloped_sides c a sl width height =
      .ok [⟨Outline.poly [width, 90,
              height - final_vertical_cut a c.front_wall_height c.num width height,
              90 - c.angle,
              final_hypotenuse a c.front_wall_height c.num width height, c.angle,
              width - final_horizontal_cut a c.front_wall_height c.num width height,
              90, height, 90],
            if c.include_back then "eeeef" else "e",
            generate_finger_holes c.thickness a c.angle sl c.front_wall_height c.h c.num,
            "left side"⟩,
           ⟨Outline.poly [width, 90,
              height - final_vertical_cut a c.front_wall_height c.num width height,
              90 - c.angle,
              final_hypotenuse a c.front_wall_height c.num width height, c.angle,
              width - final_horizontal_cut a c.front_wall_height c.num width height,
              90, height, 90],
            if c.include_back then "eeeef" else "e",
            generate_finger_holes c.thickness a c.angle sl c.front_wall_height c.h c.num,
            "right side"⟩] := by
  unfold generate_sloped_sides
  rw [if_neg hn, if_neg hs]
  rfl

theorem c6_sloped_boundary_witness :
    (cfgSlope45.num ≠ 0 ∧ Real.sin (radians 45) ≠ 0) ∧
    generate_sloped_sides cfgSlope45 (radians 45) (slFromDepth 100 3 0 (radians 45)) 100 300 =
      .ok [⟨Outline.poly [100, 90,
              300 - final_vertical_cut (radians 45) cfgSlope45.front_wall_height cfgSlope45.num
                100 300,
              90 - cfgSlope45.angle,
              final_hypotenuse (radians 45) cfgSlope45.front_wall_height cfgSlope45.num 100 300,
              cfgSlope45.angle,
              100 - final_horizontal_cut (radians 45) cfgSlope45.front_wall_height cfgSlope45.num
                100 300,
              90, 300, 90],
            if cfgSlope45.include_back then "eeeef" else "e",
            generate_finger_holes cfgSlope45.thickness (radians 45) cfgSlope45.angle
              (slFromDepth 100 3 0 (radians 45)) cfgSlope45.front_wall_height cfgSlope45.h
              cfgSlope45.num,
            "left side"⟩,
           ⟨Outline.poly [100, 90,
              300 - final_vertical_cut (radians 45) cfgSlope45.front_wall_height cfgSlope45.num
                100 300,
              90 - cfgSlope45.angle,
              final_hypotenuse (radians 45) cfgSlope45.front_wall_height cfgSlope45.num 100 300,
              cfgSlope45.angle,
              100 - final_horizontal_cut (radians 45) cfgSlope45.front_wall_height cfgSlope45.num
                100 300,
              90, 300, 90],
            if cfgSlope45.include_back then "eeeef" else "e",
            generate_finger_holes cfgSlope45.thickness (radians 45) cfgSlope45.angle
              (slFromDepth 100 3 0 (radians 45)) cfgSlope45.front_wall_height cfgSlope45.h
              cfgSlope45.num,
            "right side"⟩] :=
  ⟨⟨by decide, sin_radians_45_ne_zero⟩,
   c6_sloped_boundary cfgSlope45 (radians 45) (slFromDepth 100 3 0 (radians 45)) 100 300
     (by decide) sin_radians_45_ne_zero⟩

theorem radians_thirty : radians (30 : ℝ) = Real.pi / 6 := by
  unfold radians
  ring

theorem radians_neg_thirty : radians (-30 : ℝ) = -(Real.pi / 6) := by
  unfold radians
  ring

/-- Exact slant length of the concrete scenario at `angle = 30`. -/
theorem sl_at_30 : slFromDepth 100 3 20 (radians 30) = 59 * Real.sqrt 3 - 3 := by
  have h3 : Real.sqrt 3 ^ 2 = 3 := Real.sq_sqrt (by norm_num)
  unfold slFromDepth
  rw [radians_thirty, Real.sin_pi_div_six, Real.cos_pi_div_six]
  rw [abs_of_nonneg (by norm_num : (0 : ℝ) ≤ 1 / 2)]
  rw [max_eq_right (by norm_num : (0 : ℝ) ≤ 1 / 2 * 20)]
  rw [div_eq_iff (by positivity : Real.sqrt 3 / 2 ≠ 0)]
  linear_combination (-(59 : ℝ) / 2) * h3

/-- Exact slant length of the concrete scenario at `angle = -30`. -/
theorem sl_at_neg30 : slFromDepth 100 3 20 (radians (-30)) = 197 / 3 * Real.sqrt 3 - 3 := by
  have h3 : Real.sqrt 3 ^ 2 = 3 := Real.sq_sqrt (by norm_num)
  unfold slFromDepth
  rw [radians_neg_thirty, Real.sin_neg, Real.cos_neg, Real.sin_pi_div_six, Real.cos_pi_div_six]
  rw [abs_neg, abs_of_nonneg (by norm_num : (0 : ℝ) ≤ 1 / 2)]
  rw [max_eq_left (by norm_num : -(1 / 2) * 20 ≤ (0 : ℝ))]
  rw [div_eq_iff (by positivity : Real.sqrt 3 / 2 ≠ 0)]
  linear_combination (-(197 : ℝ) / 6) * h3

/-- Exact first-shelf `pos_y` of the concrete scenario at `angle = 30`. -/
theorem posy0_at_30 :
    shelfHolePos_y 3 (radians 30) (slFromDepth 100 3 20 (radians 30)) 300 3 0 =
      121 / 4 * Real.sqrt 3 := by
  rw [sl_at_30]
  unfold shelfHolePos_y hsOf
  rw [radians_thirty, Real.sin_pi_div_six, Real.cos_pi_div_six]
  rw [if_neg (not_lt.mpr (by positivity : (0 : ℝ) ≤ Real.pi / 6))]
  simp only [Nat.cast_zero, zero_mul, zero_div, add_zero]
  ring

/-- Exact first-shelf `pos_y` of the concrete scenario at `angle = -30`. -/
theorem posy0_at_neg30 :
    shelfHolePos_y 3 (radians (-30)) (slFromDepth 100 3 20 (radians (-30))) 300 3 0 =
      3 / 4 * Real.sqrt 3 - 3 / 2 := by
  rw [sl_at_neg30]
  unfold shelfHolePos_y hsOf
  rw [radians_neg_thirty]
  rw [if_pos (neg_lt_zero.mpr (by positivity : (0 : ℝ) < Real.pi / 6))]
  simp only [Real.sin_neg, Real.cos_neg, Real.sin_pi_div_six, Real.cos_pi_div_six]
  simp only [Nat.cast_zero, zero_mul, zero_div, add_zero]
  ring

/-- C7 (counterexample): in the concrete scenario
(`x=400, y=100, h=300, num=3, front_wall_height=20, thickness=3`), at shelf
index 0 the `pos_y` produced with `angle = -30` does not equal the `pos_y`
produced with `angle = 30` plus `sin(30°)·slant_length` — under either
reading of "slant_length" (the 30° one or the −30° one). -/
theorem c7_counterexample :
    shelfHolePos_y 3 (radians (-30)) (slFromDepth 100 3 20 (radians (-30))) 300 3 0 ≠
      shelfHolePos_y 3 (radians 30) (slFromDepth 100 3 20 (radians 30)) 300 3 0 +
        Real.sin (radians 30) * slFromDepth 100 3 20 (radians 30) ∧
    shelfHolePos_y 3 (radians (-30)) (slFromDepth 100 3 20 (radians (-30))) 300 3 0 ≠
      shelfHolePos_y 3 (radians 30) (slFromDepth 100 3 20 (radians 30)) 300 3 0 +
        Real.sin (radians 30) * slFromDepth 100 3 20 (radians (-30)) := by
  have h3pos : 0 < Real.sqrt 3 := Real.sqrt_pos.mpr (by norm_num)
  rw [posy0_at_neg30, posy0_at_30, sl_at_30, sl_at_neg30, radians_thirty,
    Real.sin_pi_div_six]
  constructor
  · intro heq
    linarith [h3pos]
  · intro heq
    linarith [h3pos]

/-- C7 (amended): in the concrete scenario, at every shelf index `i` the
`angle = -30` hole `pos_y` equals the `angle = 30` one minus
`sin(30°)·(slant_length₃₀ + 2·thickness)`, plus the index-dependent term
`i·(|hs₃₀| − |hs₋₃₀|)/(num − 0.5)` coming from the different per-tier step
(the claimed uniform `+sin(30°)·slant_length` shift does not hold). -/
theorem c7_amended_shift (i : ℕ) :
    shelfHolePos_y 3 (radians (-30)) (slFromDepth 100 3 20 (radians (-30))) 300 3 i =
      shelfHolePos_y 3 (radians 30) (slFromDepth 100 3 20 (radians 30)) 300 3 i
        - Real.sin (radians 30) * (slFromDepth 100 3 20 (radians 30) + 2 * 3)
        + (i : ℝ) * (|hsOf 3 (radians 30) (slFromDepth 100 3 20 (radians 30))|
            - |hsOf 3 (radians (-30)) (slFromDepth 100 3 20 (radians (-30)))|)
          / (((3 : ℕ) : ℝ) - 0.5) := by
  rw [radians_thirty, radians_neg_thirty]
  unfold shelfHolePos_y hsOf
  rw [if_pos (neg_lt_zero.mpr (by positivity : (0 : ℝ) < Real.pi / 6))]
  rw [if_neg (not_lt.mpr (by positivity : (0 : ℝ) ≤ Real.pi / 6))]
  simp only [Real.sin_neg, Real.cos_neg]
  ring

end DisplayShelf
